import Mathlib

/-!
Shallow embedding of the icd-mcp-server core (src/index.ts): the upstream
query construction, the three response mappers, the static tool registry
and the dual dispatcher (HTTP router and structured tool-call handler).
JavaScript runtime values are modelled by `JSValue`; thrown exceptions by
`Except String`; the remote upstream API by an oracle `String → JSValue`
mapping the fully constructed URL to the parsed JSON body.
-/

/-- A JavaScript runtime value (JSON values plus `undefined` and `NaN`).
Numbers are exact decimals `mantissa × 10^(-exp)`. -/
inductive JSValue where
  | undefined
  | null
  | nan
  | bool (b : Bool)
  | num (m : Int) (e : Nat)
  | str (s : String)
  | arr (elems : List JSValue)
  | obj (fields : List (String × JSValue))

/-- An integer-valued JS number. -/
def jint (n : Int) : JSValue := JSValue.num n 0

/-- First-match field lookup in an object field list (JS objects have unique
keys, so first match is the only match); `undefined` if absent. -/
def lookupField : List (String × JSValue) → String → JSValue
  | [], _ => JSValue.undefined
  | (k', v) :: rest, k => if k' = k then v else lookupField rest k

/-- JS property assignment `o[k] = v`: overwrites in place (key order kept),
appends when the key is new. -/
def setKey : List (String × JSValue) → String → JSValue → List (String × JSValue)
  | [], k, v => [(k, v)]
  | (k', v') :: rest, k, v =>
      if k' = k then (k, v) :: rest else (k', v') :: setKey rest k v

/-- JS truthiness. -/
def jsTruthy : JSValue → Bool
  | .undefined => false
  | .null => false
  | .nan => false
  | .bool b => b
  | .num m _ => m != 0
  | .str s => s != ""
  | .arr _ => true
  | .obj _ => true

/-- Truthiness of an optional string parameter (`if (q)` on a parameter that
is either absent, i.e. `undefined`, or a string). -/
def optTruthy : Option String → Bool
  | none => false
  | some s => s != ""

/-- JS `a || b`. -/
def jsOr (a b : JSValue) : JSValue := if jsTruthy a then a else b

/-- `Array.isArray`. -/
def jsIsArray : JSValue → Bool
  | .arr _ => true
  | _ => false

/-- Safe JS index read `v?.[i]` (optional chaining: `null`/`undefined`
yield `undefined`; objects are read at the decimal string key; strings
yield one-character strings). -/
def jsIdx : JSValue → Nat → JSValue
  | .arr xs, i => xs.getD i .undefined
  | .obj fs, i => lookupField fs (toString i)
  | .str s, i =>
      match s.data.get? i with
      | some c => .str (String.mk [c])
      | none => .undefined
  | _, _ => .undefined

/-- Plain JS index read `v[i]`: throws a `TypeError` on `null`/`undefined`,
otherwise behaves like `jsIdx`. -/
def jsIdxE (v : JSValue) (i : Nat) : Except String JSValue :=
  match v with
  | .undefined => .error "TypeError: Cannot read properties of undefined"
  | .null => .error "TypeError: Cannot read properties of null"
  | _ => .ok (jsIdx v i)

/-- JS named property read on a non-null value (`undefined` when absent or
when the receiver is not an object). -/
def jsProp (v : JSValue) (k : String) : JSValue :=
  match v with
  | .obj fs => lookupField fs k
  | _ => .undefined

/-- `Object.entries` (arrays and strings enumerate by decimal index key). -/
def jsEntries : JSValue → List (String × JSValue)
  | .obj fs => fs
  | .arr xs => xs.enum.map (fun p => (toString p.1, p.2))
  | .str s => s.data.enum.map (fun p => (toString p.1, JSValue.str (String.mk [p.2])))
  | _ => []

/-- Renders an exact decimal `m × 10^(-e)` the way JS prints it. -/
def decString (m : Int) (e : Nat) : String :=
  if e = 0 then toString m
  else
    let digits := toString m.natAbs
    let digits :=
      if digits.length ≤ e then
        String.mk (List.replicate (e + 1 - digits.length) '0') ++ digits
      else digits
    (if m < 0 then "-" else "") ++ digits.dropRight e ++ "." ++ digits.takeRight e

mutual
/-- JS `String(v)` coercion (template-literal interpolation). -/
def jsToStr : JSValue → String
  | .undefined => "undefined"
  | .null => "null"
  | .nan => "NaN"
  | .bool true => "true"
  | .bool false => "false"
  | .num m e => decString m e
  | .str s => s
  | .arr xs => jsToStrList xs
  | .obj _ => "[object Object]"

/-- Element rendering of `Array.prototype.toString` (comma-joined). -/
def jsToStrList : List JSValue → String
  | [] => ""
  | [x] => jsToStr x
  | x :: xs => jsToStr x ++ "," ++ jsToStrList xs
end

/-- `parseInt` on an already-coerced string: skip leading blanks, optional
sign, longest digit prefix; `NaN` when no digits. -/
def parseIntCore (s : String) : JSValue :=
  let t := s.trimLeft
  let neg := t.startsWith "-"
  let rest := if t.startsWith "-" || t.startsWith "+" then t.drop 1 else t
  let digits := rest.takeWhile Char.isDigit
  if digits = "" then .nan
  else .num ((if neg then -1 else 1) * (Int.ofNat (digits.toNat?.getD 0))) 0

/-- JS `parseInt(v)`. -/
def jsParseInt (v : JSValue) : JSValue := parseIntCore (jsToStr v)

/-- The string a value contributes to a `URLSearchParams` record initializer
(`undefined` is stringified, so a missing `terms` becomes `"undefined"`). -/
def jsRecordString : Option String → String
  | none => "undefined"
  | some s => s

/-- Hex digit. -/
def hexDigit (n : Nat) : Char :=
  if n < 10 then Char.ofNat (48 + n) else Char.ofNat (55 + n)

/-- `application/x-www-form-urlencoded` encoding of one character. -/
def formEncodeChar (c : Char) : String :=
  if c = ' ' then "+"
  else if c.isAlphanum || c = '*' || c = '-' || c = '.' || c = '_' then
    String.mk [c]
  else
    (String.mk [c]).toUTF8.toList.foldl
      (fun acc b => acc ++ "%" ++ String.mk [hexDigit (b.toNat / 16), hexDigit (b.toNat % 16)]) ""

/-- `URLSearchParams.toString()`. -/
def serializeQuery (q : List (String × String)) : String :=
  String.intercalate "&"
    (q.map (fun p => (p.1.data.foldl (fun acc c => acc ++ formEncodeChar c) "")
                     ++ "=" ++ (p.2.data.foldl (fun acc c => acc ++ formEncodeChar c) "")))

/-- Whether a query parameter list carries a given key. -/
def hasKey (q : List (String × String)) (k : String) : Bool :=
  q.any (fun p => p.1 == k)

/-- First value bound to a key in a query parameter list. -/
def lookupQ : List (String × String) → String → Option String
  | [], _ => none
  | (k', v) :: rest, k => if k' = k then some v else lookupQ rest k

/-- Index-passing map in the exception monad (`Array.prototype.map` whose
callback may throw). -/
def mapIdxM (f : Nat → JSValue → Except String JSValue) :
    List JSValue → Nat → Except String (List JSValue)
  | [], _ => .ok []
  | x :: xs, i => do
      let y ← f i x
      let ys ← mapIdxM f xs (i + 1)
      pure (y :: ys)

/-- Pure index-passing map (closed form of `mapIdxM` when the callback
cannot throw). -/
def mapIdxFrom (g : Nat → JSValue → JSValue) : List JSValue → Nat → List JSValue
  | [], _ => []
  | x :: xs, i => g i x :: mapIdxFrom g xs (i + 1)

/-- Map in the exception monad. -/
def mapME (f : JSValue → Except String JSValue) :
    List JSValue → Except String (List JSValue)
  | [] => .ok []
  | x :: xs => do
      let y ← f x
      let ys ← mapME f xs
      pure (y :: ys)

/-! ## NLM-style table search (diagnosis codes and provider registry) -/

def NLM_API_BASE_URL : String := "https://clinicaltables.nlm.nih.gov/api/icd10cm/v3"

def NPI_API_BASE_URL : String := "https://clinicaltables.nlm.nih.gov/api/npi_org/v3"

/-- Query construction of `searchICD10CM` (src/index.ts lines 824-836):
the seven keys of the `URLSearchParams` record initializer, then `q` and
`ef` appended only when truthy. -/
def buildIcdQuery (terms : Option String) (maxList count offset : Option Int)
    (q df sf cf ef : Option String) : List (String × String) :=
  [("terms", jsRecordString terms),
   ("maxList", toString (maxList.getD 500)),
   ("count", toString (count.getD 500)),
   ("offset", toString (offset.getD 0)),
   ("df", df.getD "code,name"),
   ("sf", sf.getD "code,name"),
   ("cf", cf.getD "code")]
  ++ (if optTruthy q then [("q", q.getD "")] else [])
  ++ (if optTruthy ef then [("ef", ef.getD "")] else [])

/-- Query construction of `searchNPI` (src/index.ts lines 890-900): same
shape as the diagnosis query, different defaults. -/
def buildNpiQuery (terms : Option String) (maxList count offset : Option Int)
    (q df sf cf ef : Option String) : List (String × String) :=
  [("terms", jsRecordString terms),
   ("maxList", toString (maxList.getD 500)),
   ("count", toString (count.getD 500)),
   ("offset", toString (offset.getD 0)),
   ("df", df.getD "NPI,name.full,provider_type,addr_practice.full"),
   ("sf", sf.getD "NPI,name.full,provider_type,addr_practice.full"),
   ("cf", cf.getD "NPI")]
  ++ (if optTruthy q then [("q", q.getD "")] else [])
  ++ (if optTruthy ef then [("ef", ef.getD "")] else [])

/-- One row of the diagnosis-code mapper (the callback of `data[1].map`,
src/index.ts lines 857-868): `code` from the id, `name` from the display
row when that row is array-shaped, then the extra-field entries assigned
one by one (overwriting on key collision). -/
def icdRow (extra : List (String × JSValue)) (data : JSValue)
    (code : JSValue) (i : Nat) : Except String JSValue := do
  let base := [("code", code),
               ("name", if jsIsArray (jsIdx (jsIdx data 3) i)
                        then jsIdx (jsIdx (jsIdx data 3) i) 1
                        else JSValue.undefined)]
  let fields ← extra.foldlM (fun acc p => do
      let v ← jsIdxE p.2 i
      pure (setKey acc p.1 v)) base
  pure (.obj fields)

/-- Response mapping of `searchICD10CM` (src/index.ts lines 849-876),
applied to the parsed upstream body: read `data[2]` as the extra-fields
map when `ef` was truthy, map `data[1]` by index, return
`{total: data[0], codes}`. -/
def searchICD10CM_map (efT : Bool) (data : JSValue) : Except String JSValue := do
  let extra ←
    if efT then do
      let d2 ← jsIdxE data 2
      pure (if jsTruthy d2 then jsEntries d2 else [])
    else pure []
  let d1 ← jsIdxE data 1
  let ids ←
    match d1 with
    | .arr ids => pure ids
    | _ => Except.error "TypeError: data[1].map is not a function"
  let rows ← mapIdxM (fun i c => icdRow extra data c i) ids 0
  let d0 ← jsIdxE data 0
  pure (.obj [("total", d0), ("codes", .arr rows)])

/-- `searchICD10CM` (src/index.ts lines 813-877) against an upstream
oracle mapping the constructed URL to the parsed JSON body. -/
def searchICD10CM (terms : Option String) (maxList count offset : Option Int)
    (q df sf cf ef : Option String) (upstream : String → JSValue) :
    Except String JSValue :=
  let fullUrl := NLM_API_BASE_URL ++ "/search?"
      ++ serializeQuery (buildIcdQuery terms maxList count offset q df sf cf ef)
  searchICD10CM_map (optTruthy ef) (upstream fullUrl)

/-- One row of the provider-registry mapper (the callback of
`data[1].map`, src/index.ts lines 921-935): the display row defaults to
`[]`, each sub-field defaults to `''`, then extra-field entries are
assigned one by one (overwriting on key collision). -/
def npiRow (extra : List (String × JSValue)) (data : JSValue)
    (npi : JSValue) (i : Nat) : Except String JSValue := do
  let displayData := jsOr (jsIdx (jsIdx data 3) i) (.arr [])
  let base := [("npi", npi),
               ("name", jsOr (jsIdx displayData 1) (.str "")),
               ("type", jsOr (jsIdx displayData 2) (.str "")),
               ("address", jsOr (jsIdx displayData 3) (.str ""))]
  let fields ← extra.foldlM (fun acc p => do
      let v ← jsIdxE p.2 i
      pure (setKey acc p.1 v)) base
  pure (.obj fields)

/-- Response mapping of `searchNPI` (src/index.ts lines 913-943). -/
def searchNPI_map (efT : Bool) (data : JSValue) : Except String JSValue := do
  let extra ←
    if efT then do
      let d2 ← jsIdxE data 2
      pure (if jsTruthy d2 then jsEntries d2 else [])
    else pure []
  let d1 ← jsIdxE data 1
  let ids ←
    match d1 with
    | .arr ids => pure ids
    | _ => Except.error "TypeError: data[1].map is not a function"
  let rows ← mapIdxM (fun i c => npiRow extra data c i) ids 0
  let d0 ← jsIdxE data 0
  pure (.obj [("total", d0), ("providers", .arr rows)])

/-- `searchNPI` (src/index.ts lines 879-944) against an upstream oracle. -/
def searchNPI (terms : Option String) (maxList count offset : Option Int)
    (q df sf cf ef : Option String) (upstream : String → JSValue) :
    Except String JSValue :=
  let fullUrl := NPI_API_BASE_URL ++ "/search?"
      ++ serializeQuery (buildNpiQuery terms maxList count offset q df sf cf ef)
  searchNPI_map (optTruthy ef) (upstream fullUrl)

/-! ## Medicare claims search -/

/-- Sort argument of the claims tool. -/
structure SortSpec where
  field : String
  direction : String
deriving Repr, DecidableEq

/-- Dataset UUID selection of `searchMedicare` (src/index.ts lines
957-962), on the already-defaulted `dataset_type`. -/
def medicareDatasetUuid (dt : String) : String :=
  if dt = "geography_and_service" then "ddee9e22-7889-4bef-975a-7853e4cd0fbb"
  else if dt = "provider_and_service" then "0e9f2f2b-7bf9-451a-912c-e02e654dd725"
  else "8889d81e-2ee7-448f-8713-f071038289b5"

/-- Query construction of `searchMedicare` (src/index.ts lines 964-1002):
clamped `size`, `offset`, conditional `keyword`, the four fixed
JSONAPI filter slots guarded by the dataset variant, and the `sort`
string. -/
def buildMedicareQuery (dataset_type hcpcs_code geo_level geo_code
    place_of_service : Option String) (size offset : Option Int)
    (keyword : Option String) (sort : Option SortSpec) :
    List (String × String) :=
  let dt := dataset_type.getD "geography_and_service"
  [("size", toString (min (size.getD 10) 5000)),
   ("offset", toString (offset.getD 0))]
  ++ (if optTruthy keyword then [("keyword", keyword.getD "")] else [])
  ++ (if optTruthy hcpcs_code && dt != "provider"
      then [("filter[filter-1][condition][path]", "HCPCS_Cd"),
            ("filter[filter-1][condition][operator]", "="),
            ("filter[filter-1][condition][value]", hcpcs_code.getD "")]
      else [])
  ++ (if dt = "geography_and_service" then
        (if optTruthy geo_level
         then [("filter[filter-2][condition][path]", "Rndrng_Prvdr_Geo_Lvl"),
               ("filter[filter-2][condition][operator]", "="),
               ("filter[filter-2][condition][value]", geo_level.getD "")]
         else [])
        ++ (if optTruthy geo_code
            then [("filter[filter-3][condition][path]", "Rndrng_Prvdr_Geo_Cd"),
                  ("filter[filter-3][condition][operator]", "="),
                  ("filter[filter-3][condition][value]", geo_code.getD "")]
            else [])
      else [])
  ++ (if optTruthy place_of_service && dt != "provider"
      then [("filter[filter-4][condition][path]", "Place_Of_Srvc"),
            ("filter[filter-4][condition][operator]", "="),
            ("filter[filter-4][condition][value]", place_of_service.getD "")]
      else [])
  ++ (match sort with
      | some s => [("sort", (if s.direction = "desc" then "-" else "") ++ s.field)]
      | none => [])

/-- The `provider` variant row mapping (src/index.ts lines 1016-1052).
Reading a property of a `null`/`undefined` row throws. -/
def mapProviderRow (item : JSValue) : Except String JSValue :=
  match item with
  | .undefined => .error "TypeError: Cannot read properties of undefined"
  | .null => .error "TypeError: Cannot read properties of null"
  | _ =>
    let g := jsProp item
    .ok (.obj
      [("npi", g "Rndrng_NPI"),
       ("provider_name", .str (jsToStr (g "Rndrng_Prvdr_Last_Org_Name") ++ ", "
          ++ jsToStr (g "Rndrng_Prvdr_First_Name")
          ++ (if jsTruthy (g "Rndrng_Prvdr_MI")
              then " " ++ jsToStr (g "Rndrng_Prvdr_MI") else ""))),
       ("provider_type", g "Rndrng_Prvdr_Type"),
       ("provider_address", g "Rndrng_Prvdr_St1"),
       ("provider_city", g "Rndrng_Prvdr_City"),
       ("provider_state", g "Rndrng_Prvdr_State_Abrvtn"),
       ("provider_zip", g "Rndrng_Prvdr_Zip5"),
       ("provider_country", g "Rndrng_Prvdr_Cntry"),
       ("medicare_participating", g "Rndrng_Prvdr_Mdcr_Prtcptg_Ind"),
       ("total_hcpcs_codes", jsParseInt (g "Tot_HCPCS_Cds")),
       ("total_beneficiaries", g "Tot_Benes"),
       ("total_services", g "Tot_Srvcs"),
       ("total_submitted_charges", g "Tot_Sbmtd_Chrg"),
       ("total_medicare_allowed", g "Tot_Mdcr_Alowd_Amt"),
       ("total_medicare_payment", g "Tot_Mdcr_Pymt_Amt"),
       ("total_medicare_standardized", g "Tot_Mdcr_Stdzd_Amt"),
       ("beneficiary_average_age", g "Bene_Avg_Age"),
       ("beneficiary_age_lt_65", g "Bene_Age_LT_65_Cnt"),
       ("beneficiary_age_65_74", g "Bene_Age_65_74_Cnt"),
       ("beneficiary_age_75_84", g "Bene_Age_75_84_Cnt"),
       ("beneficiary_age_gt_84", g "Bene_Age_GT_84_Cnt"),
       ("beneficiary_female_count", g "Bene_Feml_Cnt"),
       ("beneficiary_male_count", g "Bene_Male_Cnt"),
       ("beneficiary_race_white", g "Bene_Race_Wht_Cnt"),
       ("beneficiary_race_black", g "Bene_Race_Black_Cnt"),
       ("beneficiary_race_api", g "Bene_Race_API_Cnt"),
       ("beneficiary_race_hispanic", g "Bene_Race_Hspnc_Cnt"),
       ("beneficiary_race_native", g "Bene_Race_NatInd_Cnt"),
       ("beneficiary_race_other", g "Bene_Race_Othr_Cnt"),
       ("beneficiary_dual_count", g "Bene_Dual_Cnt"),
       ("beneficiary_non_dual_count", g "Bene_Ndual_Cnt"),
       ("beneficiary_average_risk_score", g "Bene_Avg_Risk_Scre")])

/-- The `geography_and_service` variant row mapping (src/index.ts lines
1054-1072). -/
def mapGeoRow (item : JSValue) : Except String JSValue :=
  match item with
  | .undefined => .error "TypeError: Cannot read properties of undefined"
  | .null => .error "TypeError: Cannot read properties of null"
  | _ =>
    let g := jsProp item
    .ok (.obj
      [("hcpcs_code", g "HCPCS_Cd"),
       ("hcpcs_desc", g "HCPCS_Desc"),
       ("hcpcs_drug_ind", g "HCPCS_Drug_Ind"),
       ("place_of_service", g "Place_Of_Srvc"),
       ("total_beneficiaries", g "Tot_Benes"),
       ("total_services", g "Tot_Srvcs"),
       ("total_beneficiary_days", g "Tot_Bene_Day_Srvcs"),
       ("avg_submitted_charge", g "Avg_Sbmtd_Chrg"),
       ("avg_medicare_allowed", g "Avg_Mdcr_Alowd_Amt"),
       ("avg_medicare_payment", g "Avg_Mdcr_Pymt_Amt"),
       ("avg_medicare_standardized", g "Avg_Mdcr_Stdzd_Amt"),
       ("geo_level", g "Rndrng_Prvdr_Geo_Lvl"),
       ("geo_code", g "Rndrng_Prvdr_Geo_Cd"),
       ("geo_desc", g "Rndrng_Prvdr_Geo_Desc"),
       ("total_providers", g "Tot_Rndrng_Prvdrs")])

/-- The `provider_and_service` (else-branch) row mapping (src/index.ts
lines 1073-1097). -/
def mapIndividualRow (item : JSValue) : Except String JSValue :=
  match item with
  | .undefined => .error "TypeError: Cannot read properties of undefined"
  | .null => .error "TypeError: Cannot read properties of null"
  | _ =>
    let g := jsProp item
    .ok (.obj
      [("hcpcs_code", g "HCPCS_Cd"),
       ("hcpcs_desc", g "HCPCS_Desc"),
       ("hcpcs_drug_ind", g "HCPCS_Drug_Ind"),
       ("place_of_service", g "Place_Of_Srvc"),
       ("total_beneficiaries", g "Tot_Benes"),
       ("total_services", g "Tot_Srvcs"),
       ("total_beneficiary_days", g "Tot_Bene_Day_Srvcs"),
       ("avg_submitted_charge", g "Avg_Sbmtd_Chrg"),
       ("avg_medicare_allowed", g "Avg_Mdcr_Alowd_Amt"),
       ("avg_medicare_payment", g "Avg_Mdcr_Pymt_Amt"),
       ("avg_medicare_standardized", g "Avg_Mdcr_Stdzd_Amt"),
       ("npi", g "Rndrng_NPI"),
       ("provider_name", .str (jsToStr (g "Rndrng_Prvdr_Last_Org_Name") ++ ", "
          ++ jsToStr (g "Rndrng_Prvdr_First_Name")
          ++ (if jsTruthy (g "Rndrng_Prvdr_MI")
              then " " ++ jsToStr (g "Rndrng_Prvdr_MI") else ""))),
       ("provider_type", g "Rndrng_Prvdr_Type"),
       ("provider_address", g "Rndrng_Prvdr_St1"),
       ("provider_city", g "Rndrng_Prvdr_City"),
       ("provider_state", g "Rndrng_Prvdr_State_Abrvtn"),
       ("provider_zip", g "Rndrng_Prvdr_Zip5"),
       ("provider_country", g "Rndrng_Prvdr_Cntry"),
       ("medicare_participating", g "Rndrng_Prvdr_Mdcr_Prtcptg_Ind")])

/-- Per-variant dispatch inside `data.map` (src/index.ts lines
1016, 1054, 1073): `provider`, then `geography_and_service`, else the
individual (provider-and-service) mapping. -/
def mapMedicareRow (dt : String) (item : JSValue) : Except String JSValue :=
  if dt = "provider" then mapProviderRow item
  else if dt = "geography_and_service" then mapGeoRow item
  else mapIndividualRow item

/-- Response mapping of `searchMedicare` (src/index.ts lines 1013-1099):
`total` is the row count of the upstream array, `providers` the mapped
rows. -/
def searchMedicare_map (dt : String) (data : JSValue) : Except String JSValue :=
  match data with
  | .arr rows => do
      let provs ← mapME (mapMedicareRow dt) rows
      pure (.obj [("total", jint rows.length), ("providers", .arr provs)])
  | _ => .error "TypeError: data.map is not a function"

/-- `searchMedicare` (src/index.ts lines 946-1103) against an upstream
oracle. -/
def searchMedicare (dataset_type hcpcs_code geo_level geo_code
    place_of_service : Option String) (size offset : Option Int)
    (keyword : Option String) (sort : Option SortSpec)
    (upstream : String → JSValue) : Except String JSValue :=
  let dt := dataset_type.getD "geography_and_service"
  let url := "https://data.cms.gov/data-api/v1/dataset/" ++ medicareDatasetUuid dt
      ++ "/data?" ++ serializeQuery (buildMedicareQuery dataset_type hcpcs_code
            geo_level geo_code place_of_service size offset keyword sort)
  searchMedicare_map dt (upstream url)

/-! ## Dual dispatcher -/

/-- The parsed JSON argument map delivered by either transport (the HTTP
request body, respectively `request.params.arguments`); absent members
are `none`, i.e. `undefined`. -/
structure Args where
  terms : Option String := none
  maxList : Option Int := none
  count : Option Int := none
  offset : Option Int := none
  q : Option String := none
  df : Option String := none
  sf : Option String := none
  cf : Option String := none
  ef : Option String := none
  dataset_type : Option String := none
  hcpcs_code : Option String := none
  geo_level : Option String := none
  geo_code : Option String := none
  place_of_service : Option String := none
  size : Option Int := none
  keyword : Option String := none
  sort : Option SortSpec := none

/-- The raw HTTP POST router (src/index.ts lines 1151-1166): match on the
path, pass the body members positionally to the shared search function;
unknown paths answer the 404 error. -/
def httpRoute (url : String) (data : Args) (upstream : String → JSValue) :
    Except String JSValue :=
  if url = "/nlm_search_icd10" then
    searchICD10CM data.terms data.maxList data.count data.offset data.q
      data.df data.sf data.cf data.ef upstream
  else if url = "/nlm_search_npi_providers" then
    searchNPI data.terms data.maxList data.count data.offset data.q
      data.df data.sf data.cf data.ef upstream
  else if url = "/cms_search_providers" then
    searchMedicare data.dataset_type data.hcpcs_code data.geo_level
      data.geo_code data.place_of_service data.size data.offset data.keyword
      data.sort upstream
  else .error "Not found"

/-- The structured CallTool handler (src/index.ts lines 1204-1230): switch
on the tool name, pass the argument members positionally to the shared
search function; unknown names raise the structured error. -/
def callToolHandler (toolName : String) (args : Args)
    (upstream : String → JSValue) : Except String JSValue :=
  if toolName = "nlm_search_icd10" then
    searchICD10CM args.terms args.maxList args.count args.offset args.q
      args.df args.sf args.cf args.ef upstream
  else if toolName = "nlm_search_npi_providers" then
    searchNPI args.terms args.maxList args.count args.offset args.q
      args.df args.sf args.cf args.ef upstream
  else if toolName = "cms_search_providers" then
    searchMedicare args.dataset_type args.hcpcs_code args.geo_level
      args.geo_code args.place_of_service args.size args.offset args.keyword
      args.sort upstream
  else .error "Unknown tool"

/-! ## Tool registry (static descriptors, src/index.ts lines 77-713) -/

/-- `SEARCH_ICD10CM_TOOL` (src/index.ts lines 77-129). Its parameter
schema sits under the key `input_schema`, unlike the other two tools. -/
def SEARCH_ICD10CM_TOOL : JSValue := .obj
  [("name", .str "nlm_search_icd10"),
   ("description", .str "Search for ICD-10-CM codes using the National Library of Medicine (NLM) API"),
   ("input_schema", .obj
     [("type", .str "object"),
      ("properties", .obj
        [("terms", .obj [("type", .str "string"),
           ("description", .str "The search string for which to find matches in the list.")]),
         ("maxList", .obj [("type", .str "number"), ("default", jint 500),
           ("description", .str "Specifies the number of results requested, up to the upper limit of 500.")]),
         ("count", .obj [("type", .str "number"), ("default", jint 500),
           ("description", .str "The number of results to retrieve (page size).")]),
         ("offset", .obj [("type", .str "number"), ("default", jint 0),
           ("description", .str "The starting result number (0-based) to retrieve.")]),
         ("q", .obj [("type", .str "string"),
           ("description", .str "An optional, additional query string used to further constrain the results.")]),
         ("df", .obj [("type", .str "string"), ("default", .str "code,name"),
           ("description", .str "A comma-separated list of display fields.")]),
         ("sf", .obj [("type", .str "string"), ("default", .str "code,name"),
           ("description", .str "A comma-separated list of fields to be searched.")]),
         ("cf", .obj [("type", .str "string"), ("default", .str "code"),
           ("description", .str "A field to regard as the \x27code\x27 for the returned item data.")]),
         ("ef", .obj [("type", .str "string"),
           ("description", .str "A comma-separated list of additional fields to be returned for each retrieved list item.")])]),
      ("required", .arr [.str "terms"])]),
   ("responseSchema", .obj
     [("type", .str "object"),
      ("properties", .obj
        [("total", .obj [("type", .str "number"),
           ("description", .str "Total number of results available")]),
         ("codes", .obj
           [("type", .str "array"),
            ("items", .obj
              [("type", .str "object"),
               ("properties", .obj
                 [("code", .obj [("type", .str "string"),
                    ("description", .str "ICD-10-CM code")]),
                  ("name", .obj [("type", .str "string"),
                    ("description", .str "Description of the diagnosis")])])])])])]),
   ("examples", .arr
     [.obj
       [("description", .str "Returns a complete count of the 78 diagnoses that match the string \"tuberc\", displaying both the ICD-10-CM code and its associated term"),
        ("usage", .str "\x7b \"terms\": \"tuberc\"\x7d"),
        ("response", .str "\x7b \"total\": 78, \"codes\": [\x7b \"code\": \"A15.0\", \"name\": \"Tuberculosis of lung\" \x7d, \x7b \"code\": \"A15.4\", \"name\": \"Tuberculosis of intrathoracic lymph nodes\" \x7d, \x7b \"code\": \"A15.5\", \"name\": \"Tuberculosis of larynx, trachea and bronchus\" \x7d] \x7d")],
      .obj
       [("description", .str "Returns all specific respiratory tuberculosis diagnoses (A15 series) by using the q parameter to filter codes starting with \"A15\""),
        ("usage", .str "\x7b \"terms\": \"tuberc\", \"q\": \"code:A15*\" \x7d"),
        ("response", .str "\x7b \"total\": 7, \"codes\": [\x7b \"code\": \"A15.0\", \"name\": \"Tuberculosis of lung\" \x7d, \x7b \"code\": \"A15.4\", \"name\": \"Tuberculosis of intrathoracic lymph nodes\" \x7d, \x7b \"code\": \"A15.5\", \"name\": \"Tuberculosis of larynx, trachea and bronchus\" \x7d, \x7b \"code\": \"A15.6\", \"name\": \"Tuberculous pleurisy\" \x7d, \x7b \"code\": \"A15.7\", \"name\": \"Primary respiratory tuberculosis\" \x7d, \x7b \"code\": \"A15.8\", \"name\": \"Other respiratory tuberculosis\" \x7d, \x7b \"code\": \"A15.9\", \"name\": \"Respiratory tuberculosis unspecified\" \x7d] \x7d")],
      .obj
       [("description", .str "Returns all diagnoses starting with code A02 (Salmonella infections) by searching directly for the code prefix"),
        ("usage", .str "\x7b \"terms\": \"A02\" \x7d"),
        ("response", .str "\x7b \"total\": 11, \"codes\": [\x7b \"code\": \"A02.0\", \"name\": \"Salmonella enteritis\" \x7d, \x7b \"code\": \"A02.1\", \"name\": \"Salmonella sepsis\" \x7d, \x7b \"code\": \"A02.20\", \"name\": \"Localized salmonella infection, unspecified\" \x7d, \x7b \"code\": \"A02.21\", \"name\": \"Salmonella meningitis\" \x7d, \x7b \"code\": \"A02.22\", \"name\": \"Salmonella pneumonia\" \x7d, \x7b \"code\": \"A02.23\", \"name\": \"Salmonella arthritis\" \x7d, \x7b \"code\": \"A02.24\", \"name\": \"Salmonella osteomyelitis\" \x7d] \x7d")]])]

/-- `SEARCH_NPI_TOOL` (src/index.ts lines 131-353). -/
def SEARCH_NPI_TOOL : JSValue := .obj
  [("name", .str "nlm_search_npi_providers"),
   ("description", .str "Search for healthcare providers using the National Library of Medicine\x27s (NLM) National Provider Identifier (NPI) database. Supports filtering by name, location, provider type, and other criteria."),
   ("inputSchema", .obj
     [("type", .str "object"),
      ("properties", .obj
        [("terms", .obj [("type", .str "string"),
           ("description", .str "Search terms (name, NPI, or other identifiers). Multiple words are ANDed together.")]),
         ("maxList", .obj [("type", .str "number"),
           ("description", .str "Maximum number of results to return (default: 500).")]),
         ("count", .obj [("type", .str "number"),
           ("description", .str "Number of results per page (default: 500). Use for pagination.")]),
         ("offset", .obj [("type", .str "number"),
           ("description", .str "Starting result number (default: 0). Use for pagination.")]),
         ("q", .obj [("type", .str "string"),
           ("description", .str "Additional query constraints. Examples:\n- addr_practice.city:Bethesda\n- provider_type:Physician\n- provider_type:Organization\n- addr_practice.state:NY AND provider_type:Individual")]),
         ("df", .obj [("type", .str "string"),
           ("description", .str "Comma-separated list of fields to display in results. Common values:\n- NPI: Provider\x27s NPI number\n- name.full: Provider\x27s full name\n- provider_type: Type of provider\n- addr_practice: Full practice address\n- addr_practice.city: Practice city\n- addr_practice.state: Practice state\n- addr_practice.zip: Practice ZIP code\n- taxonomy: Provider\x27s taxonomy codes")]),
         ("sf", .obj [("type", .str "string"),
           ("description", .str "Comma-separated list of fields to search in. Common values:\n- NPI: Provider\x27s NPI number\n- name.full: Provider\x27s full name\n- provider_type: Type of provider\n- addr_practice.full: Practice address\n- addr_practice.city: Practice city\n- addr_practice.state: Practice state\n- addr_practice.zip: Practice ZIP code")]),
         ("ef", .obj [("type", .str "string"),
           ("description", .str "Comma-separated list of extra fields to include. Common values:\n- other_ids: Other provider identifiers\n- taxonomy: Provider\x27s taxonomy codes\n- addr_mailing: Mailing address\n- addr_practice: Practice address details\n- phone: Contact phone numbers\n- fax: Fax numbers\n- email: Email addresses\n- website: Provider websites")])]),
      ("required", .arr [.str "terms"])]),
   ("responseSchema", .obj
     [("type", .str "object"),
      ("properties", .obj
        [("total", .obj [("type", .str "number"),
           ("description", .str "Total number of matching providers")]),
         ("providers", .obj
           [("type", .str "array"),
            ("items", .obj
              [("type", .str "object"),
               ("properties", .obj
                 [("npi", .obj [("type", .str "string"),
                    ("description", .str "Provider\x27s NPI number")]),
                  ("name", .obj [("type", .str "string"),
                    ("description", .str "Provider\x27s full name")]),
                  ("type", .obj [("type", .str "string"),
                    ("description", .str "Provider\x27s type (e.g., \x27Physician/Urology\x27, \x27Health Maintenance Organization\x27)")]),
                  ("address", .obj [("type", .str "string"),
                    ("description", .str "Provider\x27s practice address")]),
                  ("addr_practice", .obj
                    [("type", .str "object"),
                     ("description", .str "Detailed practice address information"),
                     ("properties", .obj
                       [("line1", .obj [("type", .str "string"), ("description", .str "Street address line 1")]),
                        ("line2", .obj [("type", .str "string"), ("description", .str "Street address line 2 (optional)")]),
                        ("city", .obj [("type", .str "string"), ("description", .str "City")]),
                        ("state", .obj [("type", .str "string"), ("description", .str "State")]),
                        ("zip", .obj [("type", .str "string"), ("description", .str "ZIP code")]),
                        ("country", .obj [("type", .str "string"), ("description", .str "Country code")]),
                        ("phone", .obj [("type", .str "string"), ("description", .str "Phone number")]),
                        ("fax", .obj [("type", .str "string"), ("description", .str "Fax number (optional)")]),
                        ("zip4", .obj [("type", .str "string"), ("description", .str "ZIP+4 code (optional)")]),
                        ("full", .obj [("type", .str "string"), ("description", .str "Full formatted address")])])]),
                  ("taxonomy", .obj [("type", .arr [.str "string", .str "null"]),
                    ("description", .str "Provider\x27s taxonomy codes (if requested and available)")]),
                  ("other_ids", .obj [("type", .arr [.str "string", .str "null"]),
                    ("description", .str "Other provider identifiers (if requested and available)")])])])])])]),
   ("examples", .arr
     [.obj
       [("name", .str "Search for providers in Bethesda"),
        ("input", .obj
          [("terms", .str "john"),
           ("q", .str "addr_practice.city:Bethesda AND provider_type:Physician"),
           ("sf", .str "NPI,name.full,provider_type,addr_practice.city"),
           ("df", .str "NPI,name.full,provider_type,addr_practice")]),
        ("output", .obj
          [("total", jint 10),
           ("providers", .arr
             [.obj
               [("npi", .str "1417038803"),
                ("name", .str "JOHN KEELING"),
                ("type", .str "Physician/Osteopathic Manipulative Medicine"),
                ("address", .str "8901 ROCKVILLE PIKE, BETHESDA, MD 20889"),
                ("addr_practice", .obj
                  [("line1", .str "8901 ROCKVILLE PIKE"),
                   ("city", .str "BETHESDA"),
                   ("state", .str "MD"),
                   ("zip", .str "20889"),
                   ("country", .str "US"),
                   ("phone", .str "(301) 295-0730"),
                   ("zip4", .str "5600"),
                   ("full", .str "8901 ROCKVILLE PIKE, BETHESDA, MD 20889")])]])])],
      .obj
       [("name", .str "Search for organizations with detailed address"),
        ("input", .obj
          [("terms", .str "hospital"),
           ("q", .str "provider_type:Organization"),
           ("ef", .str "taxonomy,addr_practice"),
           ("df", .str "NPI,name.full,provider_type,addr_practice,taxonomy"),
           ("count", jint 2)]),
        ("output", .obj
          [("total", jint 68),
           ("providers", .arr
             [.obj
               [("npi", .str "1962887356"),
                ("name", .str "BEVERLY HOSPITAL"),
                ("type", .str "Health Maintenance Organization"),
                ("address", .str "85 HERRICK ST, BEVERLY, MA 01915"),
                ("addr_practice", .obj
                  [("line1", .str "85 HERRICK ST"),
                   ("city", .str "BEVERLY"),
                   ("state", .str "MA"),
                   ("zip", .str "01915"),
                   ("country", .str "US"),
                   ("phone", .str "(978) 922-3000"),
                   ("zip4", .str "1790"),
                   ("full", .str "85 HERRICK ST, BEVERLY, MA 01915")]),
                ("taxonomy", .null)]])])],
      .obj
       [("name", .str "Search with pagination and extra fields"),
        ("input", .obj
          [("terms", .str "smith"),
           ("count", jint 3),
           ("offset", jint 0),
           ("ef", .str "taxonomy,addr_practice"),
           ("df", .str "NPI,name.full,provider_type,addr_practice,taxonomy")]),
        ("output", .obj
          [("total", jint 5899),
           ("providers", .arr
             [.obj
               [("npi", .str "1841356011"),
                ("name", .str "LUXOTTICA RETAIL NORTH AMERICA INC"),
                ("type", .str "Eyewear Supplier"),
                ("address", .str "4 SMITH HAVEN MALL SMITH HAVEN MALL, LAKE GROVE, NY 11755"),
                ("addr_practice", .obj
                  [("line1", .str "4 SMITH HAVEN MALL"),
                   ("line2", .str "SMITH HAVEN MALL"),
                   ("city", .str "LAKE GROVE"),
                   ("state", .str "NY"),
                   ("zip", .str "11755"),
                   ("country", .str "US"),
                   ("phone", .str "(631) 361-5289"),
                   ("zip4", .str "1219"),
                   ("full", .str "4 SMITH HAVEN MALL SMITH HAVEN MALL, LAKE GROVE, NY 11755")]),
                ("taxonomy", .null)]])])]])]

/-- `SEARCH_MEDICARE_TOOL` (src/index.ts lines 355-713). -/
def SEARCH_MEDICARE_TOOL : JSValue := .obj
  [("name", .str "cms_search_providers"),
   ("description", .str "Search Medicare Physician & Other Practitioners data for 2023 using the Centers for Medicare & Medicaid Services (CMS) database. This data includes information about services and procedures provided to Original Medicare Part B beneficiaries."),
   ("inputSchema", .obj
     [("type", .str "object"),
      ("properties", .obj
        [("dataset_type", .obj
           [("type", .str "string"),
            ("description", .str "Type of dataset to search. Each dataset serves a different analytical purpose:\n- \x27geography_and_service\x27: Aggregates data by geographic area (National, State, County, or ZIP) and service. Use this for regional healthcare analysis, understanding service patterns across different regions, and comparing healthcare metrics between areas.\n- \x27provider_and_service\x27: Shows individual provider-level data for specific services. Use this for finding specific providers who perform certain services, analyzing provider service patterns, and comparing provider performance for specific procedures.\n- \x27provider\x27: Provides comprehensive provider-level data aggregated across all their services. Use this for analyzing provider practice patterns, understanding patient demographics, and evaluating provider performance across their entire practice."),
            ("enum", .arr [.str "geography_and_service", .str "provider_and_service", .str "provider"]),
            ("default", .str "geography_and_service")]),
         ("hcpcs_code", .obj
           [("type", .str "string"),
            ("description", .str "Healthcare Common Procedure Coding System (HCPCS) code")]),
         ("geo_level", .obj
           [("type", .str "string"),
            ("description", .str "Geographic level of data (only for geography_and_service dataset)"),
            ("enum", .arr [.str "National", .str "State", .str "County", .str "Zip"])]),
         ("geo_code", .obj
           [("type", .str "string"),
            ("description", .str "Geographic code (state code, county code, or ZIP code) (only for geography_and_service dataset)")]),
         ("place_of_service", .obj
           [("type", .str "string"),
            ("description", .str "Place of service code"),
            ("enum", .arr [.str "F", .str "O"])]),
         ("size", .obj
           [("type", .str "number"),
            ("description", .str "Number of results to return (default: 10, max: 5000)")]),
         ("offset", .obj
           [("type", .str "number"),
            ("description", .str "Starting result number (default: 0)")]),
         ("keyword", .obj
           [("type", .str "string"),
            ("description", .str "Search term for quick full-text search across all fields")]),
         ("sort", .obj
           [("type", .str "object"),
            ("description", .str "Sort results by field"),
            ("properties", .obj
              [("field", .obj
                 [("type", .str "string"),
                  ("description", .str "Field to sort by"),
                  ("enum", .arr
                    [.str "HCPCS_Cd", .str "HCPCS_Desc", .str "Tot_Rndrng_Prvdrs",
                     .str "Tot_Benes", .str "Tot_Srvcs", .str "Avg_Sbmtd_Chrg",
                     .str "Avg_Mdcr_Alowd_Amt", .str "Avg_Mdcr_Pymt_Amt",
                     .str "Rndrng_Prvdr_Last_Org_Name", .str "Rndrng_Prvdr_Type",
                     .str "Tot_HCPCS_Cds", .str "Tot_Sbmtd_Chrg",
                     .str "Tot_Mdcr_Alowd_Amt", .str "Tot_Mdcr_Pymt_Amt",
                     .str "Bene_Avg_Age", .str "Bene_Avg_Risk_Scre"])]),
               ("direction", .obj
                 [("type", .str "string"),
                  ("description", .str "Sort direction"),
                  ("enum", .arr [.str "asc", .str "desc"])])])])]),
      ("required", .arr [])]),
   ("responseSchema", .obj
     [("type", .str "object"),
      ("properties", .obj
        [("providers", .obj
           [("type", .str "array"),
            ("items", .obj
              [("type", .str "object"),
               ("properties", .obj
                 [("hcpcs_code", .obj [("type", .str "string"), ("description", .str "HCPCS code")]),
                  ("hcpcs_desc", .obj [("type", .str "string"), ("description", .str "HCPCS description")]),
                  ("hcpcs_drug_ind", .obj [("type", .str "string"), ("description", .str "HCPCS drug indicator")]),
                  ("place_of_service", .obj [("type", .str "string"), ("description", .str "Place of service code")]),
                  ("total_beneficiaries", .obj [("type", .str "number"), ("description", .str "Total number of beneficiaries")]),
                  ("total_services", .obj [("type", .str "number"), ("description", .str "Total number of services")]),
                  ("total_beneficiary_days", .obj [("type", .str "number"), ("description", .str "Total beneficiary days of service")]),
                  ("avg_submitted_charge", .obj [("type", .str "number"), ("description", .str "Average submitted charge amount")]),
                  ("avg_medicare_allowed", .obj [("type", .str "number"), ("description", .str "Average Medicare allowed amount")]),
                  ("avg_medicare_payment", .obj [("type", .str "number"), ("description", .str "Average Medicare payment amount")]),
                  ("avg_medicare_standardized", .obj [("type", .str "number"), ("description", .str "Average Medicare standardized amount")]),
                  ("geo_level", .obj [("type", .str "string"), ("description", .str "Geographic level")]),
                  ("geo_code", .obj [("type", .str "string"), ("description", .str "Geographic code")]),
                  ("geo_desc", .obj [("type", .str "string"), ("description", .str "Geographic description")]),
                  ("total_providers", .obj [("type", .str "number"), ("description", .str "Total number of rendering providers")]),
                  ("npi", .obj [("type", .str "string"), ("description", .str "Provider\x27s NPI number")]),
                  ("provider_name", .obj [("type", .str "string"), ("description", .str "Provider\x27s full name")]),
                  ("provider_type", .obj [("type", .str "string"), ("description", .str "Provider\x27s specialty or type")]),
                  ("provider_address", .obj [("type", .str "string"), ("description", .str "Provider\x27s address")]),
                  ("provider_city", .obj [("type", .str "string"), ("description", .str "Provider\x27s city")]),
                  ("provider_state", .obj [("type", .str "string"), ("description", .str "Provider\x27s state")]),
                  ("provider_zip", .obj [("type", .str "string"), ("description", .str "Provider\x27s ZIP code")]),
                  ("provider_country", .obj [("type", .str "string"), ("description", .str "Provider\x27s country")]),
                  ("medicare_participating", .obj [("type", .str "string"), ("description", .str "Medicare participating indicator")]),
                  ("total_hcpcs_codes", .obj [("type", .str "number"), ("description", .str "Total number of unique HCPCS codes")]),
                  ("total_submitted_charges", .obj [("type", .str "number"), ("description", .str "Total submitted charges")]),
                  ("total_medicare_allowed", .obj [("type", .str "number"), ("description", .str "Total Medicare allowed amount")]),
                  ("total_medicare_payment", .obj [("type", .str "number"), ("description", .str "Total Medicare payment amount")]),
                  ("total_medicare_standardized", .obj [("type", .str "number"), ("description", .str "Total Medicare standardized amount")]),
                  ("beneficiary_average_age", .obj [("type", .str "number"), ("description", .str "Average age of beneficiaries")]),
                  ("beneficiary_age_lt_65", .obj [("type", .str "number"), ("description", .str "Number of beneficiaries under 65")]),
                  ("beneficiary_age_65_74", .obj [("type", .str "number"), ("description", .str "Number of beneficiaries aged 65-74")]),
                  ("beneficiary_age_75_84", .obj [("type", .str "number"), ("description", .str "Number of beneficiaries aged 75-84")]),
                  ("beneficiary_age_gt_84", .obj [("type", .str "number"), ("description", .str "Number of beneficiaries over 84")]),
                  ("beneficiary_female_count", .obj [("type", .str "number"), ("description", .str "Number of female beneficiaries")]),
                  ("beneficiary_male_count", .obj [("type", .str "number"), ("description", .str "Number of male beneficiaries")]),
                  ("beneficiary_race_white", .obj [("type", .str "number"), ("description", .str "Number of white beneficiaries")]),
                  ("beneficiary_race_black", .obj [("type", .str "number"), ("description", .str "Number of black beneficiaries")]),
                  ("beneficiary_race_api", .obj [("type", .str "number"), ("description", .str "Number of Asian/Pacific Islander beneficiaries")]),
                  ("beneficiary_race_hispanic", .obj [("type", .str "number"), ("description", .str "Number of Hispanic beneficiaries")]),
                  ("beneficiary_race_native", .obj [("type", .str "number"), ("description", .str "Number of Native American beneficiaries")]),
                  ("beneficiary_race_other", .obj [("type", .str "number"), ("description", .str "Number of other race beneficiaries")]),
                  ("beneficiary_dual_count", .obj [("type", .str "number"), ("description", .str "Number of dual-eligible beneficiaries")]),
                  ("beneficiary_non_dual_count", .obj [("type", .str "number"), ("description", .str "Number of non-dual-eligible beneficiaries")]),
                  ("beneficiary_average_risk_score", .obj [("type", .str "number"), ("description", .str "Average risk score of beneficiaries")])])])]),
         ("total", .obj [("type", .str "number"), ("description", .str "Total number of results")])])]),
   ("examples", .arr
     [.obj
       [("name", .str "Search for office visit codes by state (geography_and_service dataset)"),
        ("input", .obj
          [("dataset_type", .str "geography_and_service"),
           ("hcpcs_code", .str "99213"),
           ("geo_level", .str "State"),
           ("size", jint 2)]),
        ("output", .obj
          [("total", jint 2),
           ("providers", .arr
             [.obj
               [("geo_level", .str "State"),
                ("geo_code", .str "01"),
                ("geo_desc", .str "Alabama"),
                ("hcpcs_code", .str "99213"),
                ("hcpcs_desc", .str "Established patient office or other outpatient visit, 20-29 minutes"),
                ("hcpcs_drug_ind", .str "N"),
                ("place_of_service", .str "F"),
                ("total_providers", jint 1246),
                ("total_beneficiaries", jint 23596),
                ("total_services", jint 47657),
                ("total_beneficiary_days", jint 47657),
                ("avg_submitted_charge", .num 13955 2),
                ("avg_medicare_allowed", .num 5799 2),
                ("avg_medicare_payment", .num 4175 2),
                ("avg_medicare_standardized", .num 4436 2)]])])],
      .obj
       [("name", .str "Search for providers performing specific service (provider_and_service dataset)"),
        ("input", .obj
          [("dataset_type", .str "provider_and_service"),
           ("hcpcs_code", .str "99213"),
           ("size", jint 2)]),
        ("output", .obj
          [("total", jint 2),
           ("providers", .arr
             [.obj
               [("npi", .str "1003008533"),
                ("provider_name", .str "SABODASH, VALERIY"),
                ("provider_type", .str "Neurology"),
                ("provider_address", .str "5741 Bee Ridge Rd Ste 530"),
                ("provider_city", .str "Sarasota"),
                ("provider_state", .str "FL"),
                ("provider_zip", .str "34233"),
                ("provider_country", .str "US"),
                ("medicare_participating", .str "Y"),
                ("hcpcs_code", .str "99213"),
                ("hcpcs_desc", .str "Established patient office or other outpatient visit, 20-29 minutes"),
                ("hcpcs_drug_ind", .str "N"),
                ("place_of_service", .str "O"),
                ("total_beneficiaries", jint 45),
                ("total_services", jint 52),
                ("total_beneficiary_days", jint 52),
                ("avg_submitted_charge", jint 141),
                ("avg_medicare_allowed", .num 8844 2),
                ("avg_medicare_payment", .num 6359 2),
                ("avg_medicare_standardized", .num 6445 2)]])])],
      .obj
       [("name", .str "Search for provider by NPI (provider dataset)"),
        ("input", .obj
          [("dataset_type", .str "provider"),
           ("keyword", .str "1003000126"),
           ("size", jint 2)]),
        ("output", .obj
          [("total", jint 2),
           ("providers", .arr
             [.obj
               [("npi", .str "1003000126"),
                ("provider_name", .str "ENKESHAFI, ARDALAN"),
                ("provider_type", .str "Hospitalist"),
                ("provider_address", .str "6410 Rockledge Dr Ste 304"),
                ("provider_city", .str "Bethesda"),
                ("provider_state", .str "MD"),
                ("provider_zip", .str "20817"),
                ("provider_country", .str "US"),
                ("medicare_participating", .str "Y"),
                ("total_hcpcs_codes", jint 11),
                ("total_beneficiaries", jint 344),
                ("total_services", jint 814),
                ("total_submitted_charges", .num 17308777 2),
                ("total_medicare_allowed", .num 7859079 2),
                ("total_medicare_payment", .num 6219836 2),
                ("total_medicare_standardized", .num 5608064 2),
                ("beneficiary_average_age", jint 78),
                ("beneficiary_age_lt_65", jint 28),
                ("beneficiary_age_65_74", jint 84),
                ("beneficiary_age_75_84", jint 134),
                ("beneficiary_age_gt_84", jint 98),
                ("beneficiary_female_count", jint 183),
                ("beneficiary_male_count", jint 161),
                ("beneficiary_race_white", jint 242),
                ("beneficiary_race_black", jint 53),
                ("beneficiary_race_api", jint 26),
                ("beneficiary_dual_count", jint 62),
                ("beneficiary_non_dual_count", jint 282),
                ("beneficiary_average_risk_score", .num 27545 4)]])])],
      .obj
       [("name", .str "Search for providers by specialty (provider dataset)"),
        ("input", .obj
          [("dataset_type", .str "provider"),
           ("keyword", .str "Hospitalist"),
           ("size", jint 2),
           ("sort", .obj [("field", .str "Tot_Srvcs"), ("direction", .str "desc")])]),
        ("output", .obj
          [("total", jint 2),
           ("providers", .arr
             [.obj
               [("npi", .str "1992932214"),
                ("provider_name", .str "Makhlouf, Tony"),
                ("provider_type", .str "Hospitalist"),
                ("provider_address", .str "143 Parrot Ln"),
                ("provider_city", .str "Simi Valley"),
                ("provider_state", .str "CA"),
                ("provider_zip", .str "93065"),
                ("provider_country", .str "US"),
                ("medicare_participating", .str "Y"),
                ("total_hcpcs_codes", jint 57),
                ("total_beneficiaries", jint 653),
                ("total_services", jint 298066),
                ("total_submitted_charges", .num 725603177 2),
                ("total_medicare_allowed", .num 367168459 2),
                ("total_medicare_payment", .num 290542495 2),
                ("total_medicare_standardized", .num 286621613 2),
                ("beneficiary_average_age", jint 76),
                ("beneficiary_age_lt_65", jint 37),
                ("beneficiary_age_65_74", jint 257),
                ("beneficiary_age_75_84", jint 257),
                ("beneficiary_age_gt_84", jint 102),
                ("beneficiary_female_count", jint 463),
                ("beneficiary_male_count", jint 190),
                ("beneficiary_race_white", jint 481),
                ("beneficiary_race_black", .str ""),
                ("beneficiary_race_api", jint 33),
                ("beneficiary_race_hispanic", jint 100),
                ("beneficiary_race_native", .str ""),
                ("beneficiary_race_other", .str ""),
                ("beneficiary_dual_count", jint 158),
                ("beneficiary_non_dual_count", jint 495),
                ("beneficiary_average_risk_score", .num 1491 3)]])])],
      .obj
       [("name", .str "Search for providers by state with highest Medicare payments (provider dataset)"),
        ("input", .obj
          [("dataset_type", .str "provider"),
           ("geo_code", .str "CA"),
           ("size", jint 2),
           ("sort", .obj [("field", .str "Tot_Mdcr_Pymt_Amt"), ("direction", .str "desc")])]),
        ("output", .obj
          [("total", jint 2),
           ("providers", .arr
             [.obj
               [("npi", .str "1629407069"),
                ("provider_name", .str "Exact Sciences Laboratories, Llc"),
                ("provider_type", .str "Clinical Laboratory"),
                ("provider_address", .str "145 E Badger Rd Ste 100"),
                ("provider_city", .str "Madison"),
                ("provider_state", .str "WI"),
                ("provider_zip", .str "53713"),
                ("provider_country", .str "US"),
                ("medicare_participating", .str "Y"),
                ("total_hcpcs_codes", jint 1),
                ("total_beneficiaries", jint 600418),
                ("total_services", jint 600418),
                ("total_submitted_charges", jint 408884658),
                ("total_medicare_allowed", .num 29931962261 2),
                ("total_medicare_payment", .num 29931962261 2),
                ("total_medicare_standardized", .num 29942172346 2),
                ("beneficiary_average_age", jint 71),
                ("beneficiary_age_lt_65", jint 49483),
                ("beneficiary_age_65_74", jint 382715),
                ("beneficiary_age_75_84", jint 163238),
                ("beneficiary_age_gt_84", jint 4982),
                ("beneficiary_female_count", jint 364244),
                ("beneficiary_male_count", jint 236174),
                ("beneficiary_race_white", jint 510661),
                ("beneficiary_race_black", jint 27747),
                ("beneficiary_race_api", jint 13777),
                ("beneficiary_race_hispanic", jint 23680),
                ("beneficiary_race_native", jint 1002),
                ("beneficiary_race_other", jint 23551),
                ("beneficiary_dual_count", jint 72341),
                ("beneficiary_non_dual_count", jint 528077),
                ("beneficiary_average_risk_score", .num 7976 4)]])])]])]

/-- The body written by the structured ListTools handler (src/index.ts
lines 1196-1202): all three full descriptors. -/
def mcpListToolsBody : JSValue :=
  .obj [("tools", .arr [SEARCH_ICD10CM_TOOL, SEARCH_NPI_TOOL, SEARCH_MEDICARE_TOOL])]

/-- The body written by the HTTP `POST /list_tools` endpoint
(src/index.ts lines 1124-1139): a single hardcoded abbreviated entry for
the diagnosis tool only. -/
def httpListToolsBody : JSValue :=
  .obj [("tools", .arr
    [.obj
      [("name", .str "nlm_search_icd10"),
       ("description", jsProp SEARCH_ICD10CM_TOOL "description"),
       ("schema", .arr
         [.obj [("name", .str "terms"), ("type", .str "string"),
                ("description", .str "Search terms (code or name) to find matches in the list")],
          .obj [("name", .str "maxList"), ("type", .str "number"),
                ("description", .str "Maximum number of results to return (default: 7, max: 500)"),
                ("default", jint 7)]])]])]

/-! ## Projection helpers and concrete stubs -/

/-- Keys of an object value, in order. -/
def objKeys (v : JSValue) : List String :=
  match v with
  | .obj fs => fs.map Prod.fst
  | _ => []

/-- Whether an object value carries a key. -/
def hasProp (v : JSValue) (k : String) : Bool :=
  match v with
  | .obj fs => fs.any (fun p => p.1 == k)
  | _ => false

/-- The `tools` array of a listing body. -/
def toolsArray (v : JSValue) : List JSValue :=
  match jsProp v "tools" with
  | .arr xs => xs
  | _ => []

/-- The `name` strings of the tools of a listing body. -/
def toolNames (v : JSValue) : List String :=
  (toolsArray v).map (fun t =>
    match jsProp t "name" with
    | .str s => s
    | _ => "")

/-- Keys of the object inside a non-throwing mapper result. -/
def rowKeys (e : Except String JSValue) : List String :=
  match e with
  | .ok v => objKeys v
  | .error _ => []

/-- The stub upstream envelope of the spec scenario:
`[78, ["A15.0","A15.4"], null, [[..],[..]]]`. -/
def tubercEnvelope : JSValue := .arr
  [jint 78,
   .arr [.str "A15.0", .str "A15.4"],
   .null,
   .arr [.arr [.str "A15.0", .str "Tuberculosis of lung"],
         .arr [.str "A15.4", .str "Tuberculosis of intrathoracic lymph nodes"]]]

/-- The normalized result the spec scenario expects. -/
def tubercResult : JSValue := .obj
  [("total", jint 78),
   ("codes", .arr
     [.obj [("code", .str "A15.0"), ("name", .str "Tuberculosis of lung")],
      .obj [("code", .str "A15.4"), ("name", .str "Tuberculosis of intrathoracic lymph nodes")]])]

/-- An argument map with every member absent. -/
def noArgs : Args := {}

/-- An upstream envelope whose extra-fields map collides with the fixed
output keys `code` and `name`. -/
def shadowEnvelope : JSValue := .arr
  [jint 78,
   .arr [.str "A15.0"],
   .obj [("code", .arr [.str "SHADOW"]), ("name", .arr [.str "SHADOWNAME"])],
   .arr [.arr [.str "A15.0", .str "Tuberculosis of lung"]]]

/-! ## Computation lemmas -/

theorem except_bind_ok {a b : Type} (x : a) (f : a → Except String b) :
    (Except.ok x >>= f) = f x := rfl

theorem except_bind_err {a b : Type} (e : String) (f : a → Except String b) :
    ((Except.error e : Except String a) >>= f) = .error e := rfl

theorem except_pure_eq {a : Type} (x : a) : (pure x : Except String a) = .ok x := rfl

theorem mapIdxM_pure (f : Nat → JSValue → Except String JSValue)
    (g : Nat → JSValue → JSValue) (hfg : ∀ n x, f n x = .ok (g n x)) :
    ∀ (xs : List JSValue) (n : Nat), mapIdxM f xs n = .ok (mapIdxFrom g xs n)
  | [], _ => rfl
  | x :: xs, n => by
      simp only [mapIdxM, mapIdxFrom, hfg n x, mapIdxM_pure f g hfg xs (n + 1),
        except_bind_ok]
      rfl

theorem mapIdxFrom_length (g : Nat → JSValue → JSValue) :
    ∀ (xs : List JSValue) (n : Nat), (mapIdxFrom g xs n).length = xs.length
  | [], _ => rfl
  | _ :: xs, n => by simp [mapIdxFrom, mapIdxFrom_length g xs (n + 1)]

theorem mapIdxFrom_getD (g : Nat → JSValue → JSValue) (xs : List JSValue) :
    ∀ (n i : Nat), i < xs.length →
      (mapIdxFrom g xs n).getD i JSValue.undefined
        = g (n + i) (xs.getD i JSValue.undefined) := by
  induction xs with
  | nil => intro n i h; simp at h
  | cons x xs ih =>
      intro n i h
      cases i with
      | zero => simp [mapIdxFrom]
      | succ i =>
          have h2 : i < xs.length := Nat.lt_of_succ_lt_succ (by simpa using h)
          have h3 := ih (n + 1) i h2
          simp only [mapIdxFrom, List.getD_cons_succ]
          rw [h3]
          congr 1
          omega

theorem mapME_ok_length (f : JSValue → Except String JSValue) :
    ∀ (xs ys : List JSValue), mapME f xs = .ok ys → ys.length = xs.length := by
  intro xs
  induction xs with
  | nil =>
      intro ys h
      simp only [mapME] at h
      cases h
      rfl
  | cons x xs ih =>
      intro ys h
      simp only [mapME] at h
      cases hfx : f x with
      | error e => rw [hfx, except_bind_err] at h; cases h
      | ok y =>
          rw [hfx, except_bind_ok] at h
          cases hrest : mapME f xs with
          | error e => rw [hrest, except_bind_err] at h; cases h
          | ok zs =>
              rw [hrest, except_bind_ok, except_pure_eq] at h
              cases h
              simp [ih zs hrest]

theorem jsIdxE_ok_of_ok (v w : JSValue) (i j : Nat)
    (h : jsIdxE v j = .ok w) : jsIdxE v i = .ok (jsIdx v i) := by
  cases v <;> simp_all [jsIdxE]

/-- First-match choice of two lookups. -/
def orQ (a b : Option String) : Option String :=
  match a with
  | some v => some v
  | none => b

theorem orQ_some (v : String) (b : Option String) : orQ (some v) b = some v := rfl

theorem orQ_none (b : Option String) : orQ none b = b := rfl

theorem orQ_ite (c : Prop) [Decidable c] (a a' b : Option String) :
    orQ (if c then a else a') b = if c then orQ a b else orQ a' b := by
  split <;> rfl

theorem lookupQ_append (a b : List (String × String)) (k : String) :
    lookupQ (a ++ b) k = orQ (lookupQ a k) (lookupQ b k) := by
  induction a with
  | nil => simp [lookupQ, orQ]
  | cons p rest ih =>
      cases p with
      | mk k' v =>
        simp only [List.cons_append, lookupQ]
        split
        · rfl
        · exact ih

theorem lookupQ_ite (c : Prop) [Decidable c] (a b : List (String × String))
    (k : String) : lookupQ (if c then a else b) k
      = if c then lookupQ a k else lookupQ b k := by
  split <;> rfl

theorem hasKey_append (a b : List (String × String)) (k : String) :
    hasKey (a ++ b) k = (hasKey a k || hasKey b k) := by
  simp [hasKey, List.any_append]

theorem hasKey_ite (c : Prop) [Decidable c] (a b : List (String × String))
    (k : String) : hasKey (if c then a else b) k
      = if c then hasKey a k else hasKey b k := by
  split <;> rfl

theorem ite_true_false (b : Bool) : (if b = true then true else false) = b := by
  cases b <;> simp

theorem any_ite (c : Prop) [Decidable c] (a b : List (String × String))
    (f : String × String → Bool) :
    (if c then a else b).any f = if c then a.any f else b.any f := by
  split <;> rfl

theorem decide_eq_beq (a b : String) : decide (a = b) = (a == b) := by
  by_cases h : a = b <;> simp [h]

/-! ## Claims -/

/-- C2: for each of the three tool names, the structured CallTool handler
and the raw HTTP route handler produce identical results (hence identical
serialized NormalizedResult content) for identical argument maps and the
same upstream behavior. -/
theorem transports_agree (args : Args) (upstream : String → JSValue) :
    callToolHandler "nlm_search_icd10" args upstream
      = httpRoute "/nlm_search_icd10" args upstream
    ∧ callToolHandler "nlm_search_npi_providers" args upstream
      = httpRoute "/nlm_search_npi_providers" args upstream
    ∧ callToolHandler "cms_search_providers" args upstream
      = httpRoute "/cms_search_providers" args upstream :=
  ⟨rfl, rfl, rfl⟩

/-- C4: with `terms` absent, neither transport surfaces a validation
error; the constructed query carries the literal pair
`("terms", "undefined")` and the upstream response is fetched and mapped
into a normal success result on both transports. -/
theorem missing_terms_reaches_upstream :
    (buildIcdQuery none none none none none none none none none).head?
      = some ("terms", "undefined")
    ∧ callToolHandler "nlm_search_icd10" noArgs (fun _ => tubercEnvelope)
      = .ok tubercResult
    ∧ httpRoute "/nlm_search_icd10" noArgs (fun _ => tubercEnvelope)
      = .ok tubercResult :=
  ⟨rfl, rfl, rfl⟩

/-- C3 (amended): for both NLM-style builders the query always carries
`terms, maxList, count, offset, df, sf, cf`; it carries `q` (resp. `ef`)
exactly when the caller provided a non-empty value; and providing `q` or
`ef` as the empty string produces the identical query as omitting it. -/
theorem nlm_query_key_presence (terms : Option String)
    (maxList count offset : Option Int) (q df sf cf ef : Option String) :
    (hasKey (buildIcdQuery terms maxList count offset q df sf cf ef) "terms" = true
     ∧ hasKey (buildIcdQuery terms maxList count offset q df sf cf ef) "maxList" = true
     ∧ hasKey (buildIcdQuery terms maxList count offset q df sf cf ef) "count" = true
     ∧ hasKey (buildIcdQuery terms maxList count offset q df sf cf ef) "offset" = true
     ∧ hasKey (buildIcdQuery terms maxList count offset q df sf cf ef) "df" = true
     ∧ hasKey (buildIcdQuery terms maxList count offset q df sf cf ef) "sf" = true
     ∧ hasKey (buildIcdQuery terms maxList count offset q df sf cf ef) "cf" = true
     ∧ hasKey (buildIcdQuery terms maxList count offset q df sf cf ef) "q" = optTruthy q
     ∧ hasKey (buildIcdQuery terms maxList count offset q df sf cf ef) "ef" = optTruthy ef
     ∧ buildIcdQuery terms maxList count offset (some "") df sf cf ef
         = buildIcdQuery terms maxList count offset none df sf cf ef
     ∧ buildIcdQuery terms maxList count offset q df sf cf (some "")
         = buildIcdQuery terms maxList count offset q df sf cf none)
    ∧ (hasKey (buildNpiQuery terms maxList count offset q df sf cf ef) "terms" = true
     ∧ hasKey (buildNpiQuery terms maxList count offset q df sf cf ef) "maxList" = true
     ∧ hasKey (buildNpiQuery terms maxList count offset q df sf cf ef) "count" = true
     ∧ hasKey (buildNpiQuery terms maxList count offset q df sf cf ef) "offset" = true
     ∧ hasKey (buildNpiQuery terms maxList count offset q df sf cf ef) "df" = true
     ∧ hasKey (buildNpiQuery terms maxList count offset q df sf cf ef) "sf" = true
     ∧ hasKey (buildNpiQuery terms maxList count offset q df sf cf ef) "cf" = true
     ∧ hasKey (buildNpiQuery terms maxList count offset q df sf cf ef) "q" = optTruthy q
     ∧ hasKey (buildNpiQuery terms maxList count offset q df sf cf ef) "ef" = optTruthy ef
     ∧ buildNpiQuery terms maxList count offset (some "") df sf cf ef
         = buildNpiQuery terms maxList count offset none df sf cf ef
     ∧ buildNpiQuery terms maxList count offset q df sf cf (some "")
         = buildNpiQuery terms maxList count offset q df sf cf none) := by
  constructor <;>
  refine ⟨?_, ?_, ?_, ?_, ?_, ?_, ?_, ?_, ?_, ?_, ?_⟩ <;>
  cases q <;> cases ef <;>
  simp [buildIcdQuery, buildNpiQuery, hasKey, any_ite, ite_true_false, optTruthy,
    bne, Bool.not_not, decide_eq_beq]

/-- C3 counterexample: providing `q` as the empty string yields the very
same constructed query as omitting `q` (the claim asserts they must
differ observably), and the query then carries no `q` key although the
caller provided the parameter. -/
theorem nlm_query_empty_q_counterexample :
    buildIcdQuery (some "tuberc") none none none (some "") none none none none
      = buildIcdQuery (some "tuberc") none none none none none none none none
    ∧ hasKey (buildIcdQuery (some "tuberc") none none none (some "") none none
        none none) "q" = false :=
  ⟨rfl, rfl⟩

/-- C7 (amended): the claims query always encodes `size` as
`min(size, 5000)` (in particular 50000 becomes 5000) and always carries
`offset`; it carries `keyword` exactly when the caller provided a
non-empty keyword. -/
theorem medicare_query_clamp (dataset_type hcpcs_code geo_level geo_code
    place_of_service : Option String) (size offset : Option Int)
    (keyword : Option String) (sort : Option SortSpec) :
    lookupQ (buildMedicareQuery dataset_type hcpcs_code geo_level geo_code
        place_of_service size offset keyword sort) "size"
      = some (toString (min (size.getD 10) 5000))
    ∧ hasKey (buildMedicareQuery dataset_type hcpcs_code geo_level geo_code
        place_of_service size offset keyword sort) "offset" = true
    ∧ hasKey (buildMedicareQuery dataset_type hcpcs_code geo_level geo_code
        place_of_service size offset keyword sort) "keyword" = optTruthy keyword
    ∧ lookupQ (buildMedicareQuery dataset_type hcpcs_code geo_level geo_code
        place_of_service (some 50000) offset keyword sort) "size"
      = some "5000" := by
  refine ⟨?_, ?_, ?_, ?_⟩
  · simp [buildMedicareQuery, lookupQ]
  · simp [buildMedicareQuery, hasKey]
  · cases sort <;> cases keyword <;>
      simp [buildMedicareQuery, hasKey, any_ite, ite_true_false, optTruthy,
        bne, Bool.not_not, decide_eq_beq]
  · simp [buildMedicareQuery, lookupQ]
    rfl

/-- C6: each claims filter field has a fixed slot (`hcpcs_code` is
filter-1, `geo_level` filter-2, `geo_code` filter-3, `place_of_service`
filter-4) independent of which other filters are present; the geography
filters are emitted only under the `geography_and_service` variant, the
hcpcs and place-of-service filters never under the `provider` variant,
and filters irrelevant to the active variant are silently dropped rather
than raising an error. -/
theorem medicare_filter_slots (dataset_type hcpcs_code geo_level geo_code
    place_of_service : Option String) (size offset : Option Int)
    (keyword : Option String) (sort : Option SortSpec) :
    (lookupQ (buildMedicareQuery dataset_type hcpcs_code geo_level geo_code
        place_of_service size offset keyword sort)
        "filter[filter-1][condition][path]"
      = (if optTruthy hcpcs_code
            && (dataset_type.getD "geography_and_service") != "provider"
         then some "HCPCS_Cd" else none))
    ∧ (lookupQ (buildMedicareQuery dataset_type hcpcs_code geo_level geo_code
        place_of_service size offset keyword sort)
        "filter[filter-1][condition][value]"
      = (if optTruthy hcpcs_code
            && (dataset_type.getD "geography_and_service") != "provider"
         then some (hcpcs_code.getD "") else none))
    ∧ (lookupQ (buildMedicareQuery dataset_type hcpcs_code geo_level geo_code
        place_of_service size offset keyword sort)
        "filter[filter-2][condition][path]"
      = (if dataset_type.getD "geography_and_service" = "geography_and_service"
         then (if optTruthy geo_level then some "Rndrng_Prvdr_Geo_Lvl" else none)
         else none))
    ∧ (lookupQ (buildMedicareQuery dataset_type hcpcs_code geo_level geo_code
        place_of_service size offset keyword sort)
        "filter[filter-3][condition][path]"
      = (if dataset_type.getD "geography_and_service" = "geography_and_service"
         then (if optTruthy geo_code then some "Rndrng_Prvdr_Geo_Cd" else none)
         else none))
    ∧ (lookupQ (buildMedicareQuery dataset_type hcpcs_code geo_level geo_code
        place_of_service size offset keyword sort)
        "filter[filter-4][condition][path]"
      = (if optTruthy place_of_service
            && (dataset_type.getD "geography_and_service") != "provider"
         then some "Place_Of_Srvc" else none))
    ∧ buildMedicareQuery (some "provider") hcpcs_code geo_level geo_code
        place_of_service size offset keyword sort
      = buildMedicareQuery (some "provider") none none none none size offset
          keyword sort
    ∧ buildMedicareQuery (some "provider_and_service") hcpcs_code geo_level
        geo_code place_of_service size offset keyword sort
      = buildMedicareQuery (some "provider_and_service") hcpcs_code none none
          place_of_service size offset keyword sort := by
  refine ⟨?_, ?_, ?_, ?_, ?_, ?_, ?_⟩ <;>
  cases sort <;>
  simp [buildMedicareQuery, lookupQ_append, lookupQ_ite, orQ_ite,
    orQ_some, orQ_none, lookupQ, optTruthy]

/-- C7 counterexample: a caller who provides `keyword` as the empty
string has provided the parameter, yet the constructed query carries no
`keyword` key — so `keyword` is not included exactly when provided. -/
theorem medicare_empty_keyword_counterexample :
    hasKey (buildMedicareQuery none none none none none none none (some "")
      none) "keyword" = false
    ∧ (some "" : Option String) ≠ none :=
  ⟨rfl, by decide⟩

/-- C8: whenever the claims tool returns a result, `total` is the length
of the returned `providers` array (the row count actually mapped, never
an upstream-reported match total). -/
theorem medicare_total_counts_rows (dataset_type hcpcs_code geo_level geo_code
    place_of_service : Option String) (size offset : Option Int)
    (keyword : Option String) (sort : Option SortSpec) (rows : List JSValue)
    (res : JSValue)
    (h : searchMedicare dataset_type hcpcs_code geo_level geo_code
        place_of_service size offset keyword sort (fun _ => JSValue.arr rows)
      = Except.ok res) :
    ∃ provs : List JSValue,
      res = JSValue.obj [("total", jint provs.length),
                         ("providers", JSValue.arr provs)] := by
  have h2 : searchMedicare_map (dataset_type.getD "geography_and_service")
      (JSValue.arr rows) = Except.ok res := h
  simp only [searchMedicare_map] at h2
  cases hm : mapME (mapMedicareRow (dataset_type.getD "geography_and_service"))
      rows with
  | error e => rw [hm, except_bind_err] at h2; cases h2
  | ok provs =>
      rw [hm, except_bind_ok, except_pure_eq] at h2
      cases h2
      exact ⟨provs, by rw [mapME_ok_length _ rows provs hm]⟩

/-- C8 witness: concrete instance (one geography row). -/
theorem medicare_total_counts_rows_witness :
    searchMedicare none none none none none none none none none
        (fun _ => JSValue.arr [JSValue.obj [("HCPCS_Cd", JSValue.str "99213")]])
      = Except.ok (JSValue.obj
          [("total", jint 1),
           ("providers", JSValue.arr
             [JSValue.obj
               [("hcpcs_code", JSValue.str "99213"),
                ("hcpcs_desc", JSValue.undefined),
                ("hcpcs_drug_ind", JSValue.undefined),
                ("place_of_service", JSValue.undefined),
                ("total_beneficiaries", JSValue.undefined),
                ("total_services", JSValue.undefined),
                ("total_beneficiary_days", JSValue.undefined),
                ("avg_submitted_charge", JSValue.undefined),
                ("avg_medicare_allowed", JSValue.undefined),
                ("avg_medicare_payment", JSValue.undefined),
                ("avg_medicare_standardized", JSValue.undefined),
                ("geo_level", JSValue.undefined),
                ("geo_code", JSValue.undefined),
                ("geo_desc", JSValue.undefined),
                ("total_providers", JSValue.undefined)]])])
    ∧ (∃ provs : List JSValue,
        JSValue.obj
          [("total", jint 1),
           ("providers", JSValue.arr
             [JSValue.obj
               [("hcpcs_code", JSValue.str "99213"),
                ("hcpcs_desc", JSValue.undefined),
                ("hcpcs_drug_ind", JSValue.undefined),
                ("place_of_service", JSValue.undefined),
                ("total_beneficiaries", JSValue.undefined),
                ("total_services", JSValue.undefined),
                ("total_beneficiary_days", JSValue.undefined),
                ("avg_submitted_charge", JSValue.undefined),
                ("avg_medicare_allowed", JSValue.undefined),
                ("avg_medicare_payment", JSValue.undefined),
                ("avg_medicare_standardized", JSValue.undefined),
                ("geo_level", JSValue.undefined),
                ("geo_code", JSValue.undefined),
                ("geo_desc", JSValue.undefined),
                ("total_providers", JSValue.undefined)]])]
          = JSValue.obj [("total", jint provs.length),
                         ("providers", JSValue.arr provs)]) :=
  ⟨rfl, medicare_total_counts_rows none none none none none none none none none
      [JSValue.obj [("HCPCS_Cd", JSValue.str "99213")]] _ rfl⟩

/-- C9: a `dataset_type` outside the three enumerated variants selects
the provider dataset UUID in the URL, yet maps every row with the
`provider_and_service` field table — and that table genuinely differs
from the `provider` table, so dataset selection and row mapping
disagree. -/
theorem medicare_unknown_variant (dt : String)
    (h1 : dt ≠ "geography_and_service") (h2 : dt ≠ "provider_and_service")
    (h3 : dt ≠ "provider") :
    medicareDatasetUuid dt = medicareDatasetUuid "provider"
    ∧ (∀ item, mapMedicareRow dt item
        = mapMedicareRow "provider_and_service" item)
    ∧ rowKeys (mapMedicareRow dt (JSValue.obj []))
        ≠ rowKeys (mapMedicareRow "provider" (JSValue.obj [])) := by
  refine ⟨?_, ?_, ?_⟩
  · simp [medicareDatasetUuid, h1, h2]
  · intro item; simp [mapMedicareRow, h1, h3]
  · have hred : mapMedicareRow dt (JSValue.obj [])
        = mapIndividualRow (JSValue.obj []) := by simp [mapMedicareRow, h1, h3]
    rw [hred]
    decide

/-- C9 witness: the arbitrary string "foo" as dataset type. -/
theorem medicare_unknown_variant_witness :
    ("foo" : String) ≠ "geography_and_service"
    ∧ (medicareDatasetUuid "foo" = medicareDatasetUuid "provider"
       ∧ (∀ item, mapMedicareRow "foo" item
           = mapMedicareRow "provider_and_service" item)
       ∧ rowKeys (mapMedicareRow "foo" (JSValue.obj []))
           ≠ rowKeys (mapMedicareRow "provider" (JSValue.obj []))) :=
  ⟨by decide,
   medicare_unknown_variant "foo" (by decide) (by decide) (by decide)⟩

/-- C5 (amended): the structured ListTools handler returns the three full
static descriptors, each carrying its name, a parameter schema, a
response schema and examples; the HTTP `POST /list_tools` endpoint
instead returns a single abbreviated descriptor for the diagnosis tool
only, without response schema or examples. -/
theorem list_tools_transports :
    mcpListToolsBody = JSValue.obj [("tools",
      JSValue.arr [SEARCH_ICD10CM_TOOL, SEARCH_NPI_TOOL, SEARCH_MEDICARE_TOOL])]
    ∧ toolNames mcpListToolsBody
        = ["nlm_search_icd10", "nlm_search_npi_providers", "cms_search_providers"]
    ∧ hasProp SEARCH_ICD10CM_TOOL "input_schema" = true
    ∧ hasProp SEARCH_ICD10CM_TOOL "responseSchema" = true
    ∧ hasProp SEARCH_ICD10CM_TOOL "examples" = true
    ∧ hasProp SEARCH_NPI_TOOL "inputSchema" = true
    ∧ hasProp SEARCH_NPI_TOOL "responseSchema" = true
    ∧ hasProp SEARCH_NPI_TOOL "examples" = true
    ∧ hasProp SEARCH_MEDICARE_TOOL "inputSchema" = true
    ∧ hasProp SEARCH_MEDICARE_TOOL "responseSchema" = true
    ∧ hasProp SEARCH_MEDICARE_TOOL "examples" = true
    ∧ toolNames httpListToolsBody = ["nlm_search_icd10"]
    ∧ (∀ t ∈ toolsArray httpListToolsBody,
        hasProp t "responseSchema" = false ∧ hasProp t "examples" = false) := by
  refine ⟨rfl, ?_, ?_, ?_, ?_, ?_, ?_, ?_, ?_, ?_, ?_, ?_, ?_⟩ <;> decide

/-- C5 counterexample: the HTTP listing carries a single tool, not the
static descriptors of all three — the provider-registry and claims tools
are absent from it. -/
theorem http_list_tools_counterexample :
    (toolsArray httpListToolsBody).length = 1
    ∧ toolNames httpListToolsBody
        ≠ ["nlm_search_icd10", "nlm_search_npi_providers", "cms_search_providers"]
    ∧ "nlm_search_npi_providers" ∉ toolNames httpListToolsBody := by
  refine ⟨rfl, ?_, ?_⟩ <;> decide

/-- C1 (amended): for every upstream envelope whose id list
(`envelope[1]`) is an array and every diagnosis-code request that does
not supply a non-empty `ef`, the search returns `total = envelope[0]`
and a codes array of the same length as the id list, where the item at
each index has `code` equal to the id at that index and `name` equal to
`envelope[3][index][1]` when that display row is array-shaped and
`undefined` otherwise (including when `envelope[3]` is shorter than the
id list). -/
theorem icd_normalization_no_ef (terms : Option String)
    (maxList count offset : Option Int) (q df sf cf ef : Option String)
    (data : JSValue) (ids : List JSValue)
    (hef : optTruthy ef = false)
    (h1 : jsIdxE data 1 = Except.ok (JSValue.arr ids)) :
    ∃ rows : List JSValue,
      searchICD10CM terms maxList count offset q df sf cf ef (fun _ => data)
        = Except.ok (JSValue.obj
            [("total", jsIdx data 0), ("codes", JSValue.arr rows)])
      ∧ rows.length = ids.length
      ∧ ∀ i : Nat, i < ids.length →
          jsProp (rows.getD i JSValue.undefined) "code" = ids.getD i JSValue.undefined
          ∧ jsProp (rows.getD i JSValue.undefined) "name"
              = (if jsIsArray (jsIdx (jsIdx data 3) i)
                 then jsIdx (jsIdx (jsIdx data 3) i) 1 else JSValue.undefined) := by
  have hrow : ∀ (n : Nat) (x : JSValue), icdRow [] data x n
      = Except.ok (JSValue.obj [("code", x),
          ("name", if jsIsArray (jsIdx (jsIdx data 3) n)
                   then jsIdx (jsIdx (jsIdx data 3) n) 1 else JSValue.undefined)]) :=
    fun n x => rfl
  have hmap := mapIdxM_pure (fun i c => icdRow [] data c i)
    (fun n x => JSValue.obj [("code", x),
      ("name", if jsIsArray (jsIdx (jsIdx data 3) n)
               then jsIdx (jsIdx (jsIdx data 3) n) 1 else JSValue.undefined)])
    hrow ids 0
  have h0 := jsIdxE_ok_of_ok data (JSValue.arr ids) 0 1 h1
  refine ⟨mapIdxFrom (fun n x => JSValue.obj [("code", x),
      ("name", if jsIsArray (jsIdx (jsIdx data 3) n)
               then jsIdx (jsIdx (jsIdx data 3) n) 1 else JSValue.undefined)]) ids 0,
    ?_, ?_, ?_⟩
  · show searchICD10CM_map (optTruthy ef) data = _
    rw [hef]
    simp [searchICD10CM_map, h1, hmap, h0, except_bind_ok, except_pure_eq]
  · exact mapIdxFrom_length _ ids 0
  · intro i hi
    have hg := mapIdxFrom_getD (fun n x => JSValue.obj [("code", x),
      ("name", if jsIsArray (jsIdx (jsIdx data 3) n)
               then jsIdx (jsIdx (jsIdx data 3) n) 1 else JSValue.undefined)])
      ids 0 i hi
    rw [hg]
    constructor
    · simp [jsProp, lookupField]
    · simp [jsProp, lookupField]

/-- C1 witness: the spec scenario `\x7bterms:"tuberc"\x7d` against the stub
envelope, yielding exactly the expected normalized result. -/
theorem icd_normalization_no_ef_witness :
    optTruthy (none : Option String) = false
    ∧ jsIdxE tubercEnvelope 1
        = Except.ok (JSValue.arr [JSValue.str "A15.0", JSValue.str "A15.4"])
    ∧ (∃ rows : List JSValue,
        searchICD10CM (some "tuberc") none none none none none none none none
            (fun _ => tubercEnvelope)
          = Except.ok (JSValue.obj
              [("total", jsIdx tubercEnvelope 0), ("codes", JSValue.arr rows)])
        ∧ rows.length
            = ([JSValue.str "A15.0", JSValue.str "A15.4"] : List JSValue).length
        ∧ ∀ i : Nat,
            i < ([JSValue.str "A15.0", JSValue.str "A15.4"] : List JSValue).length →
            jsProp (rows.getD i JSValue.undefined) "code"
              = ([JSValue.str "A15.0", JSValue.str "A15.4"] : List JSValue).getD i
                  JSValue.undefined
            ∧ jsProp (rows.getD i JSValue.undefined) "name"
                = (if jsIsArray (jsIdx (jsIdx tubercEnvelope 3) i)
                   then jsIdx (jsIdx (jsIdx tubercEnvelope 3) i) 1
                   else JSValue.undefined))
    ∧ searchICD10CM (some "tuberc") none none none none none none none none
        (fun _ => tubercEnvelope) = Except.ok tubercResult :=
  ⟨rfl, rfl,
   icd_normalization_no_ef (some "tuberc") none none none none none none none
     none tubercEnvelope [JSValue.str "A15.0", JSValue.str "A15.4"] rfl rfl,
   rfl⟩

/-- C1 counterexample: with `ef` supplied and an upstream extra-fields
map whose keys collide with the fixed output keys, the returned item at
index 0 has `code` "SHADOW" — not the id "A15.0" of the id list — and a
`name` not taken from the display row, falsifying the claim as stated. -/
theorem icd_normalization_counterexample :
    searchICD10CM (some "tuberc") none none none none none none none
        (some "code,name") (fun _ => shadowEnvelope)
      = Except.ok (JSValue.obj
          [("total", jint 78),
           ("codes", JSValue.arr
             [JSValue.obj [("code", JSValue.str "SHADOW"),
                           ("name", JSValue.str "SHADOWNAME")]])])
    ∧ ("SHADOW" : String) ≠ "A15.0"
    ∧ ("SHADOWNAME" : String) ≠ "Tuberculosis of lung" :=
  ⟨rfl, by decide, by decide⟩

/-- C10: for both NLM-style mappers, when the caller supplies `ef` and
the upstream extra-fields map carries a key equal to a fixed output key
("code" for the diagnosis tool, "npi" for the provider tool), the
extra-field value at the row index overwrites the fixed field, so the
item identifying field comes from the extra-fields map rather than the
id list. -/
theorem extra_fields_overwrite (terms : Option String)
    (maxList count offset : Option Int) (q df sf cf ef : Option String)
    (hef : optTruthy ef = true) (t d3 : JSValue) (ids vs : List JSValue) :
    (∃ rows : List JSValue,
      searchICD10CM terms maxList count offset q df sf cf ef
          (fun _ => JSValue.arr
            [t, .arr ids, .obj [("code", .arr vs)], d3])
        = Except.ok (JSValue.obj
            [("total", t), ("codes", JSValue.arr rows)])
      ∧ rows.length = ids.length
      ∧ ∀ i : Nat, i < ids.length →
          jsProp (rows.getD i JSValue.undefined) "code" = vs.getD i JSValue.undefined)
    ∧ (∃ rows : List JSValue,
      searchNPI terms maxList count offset q df sf cf ef
          (fun _ => JSValue.arr
            [t, .arr ids, .obj [("npi", .arr vs)], d3])
        = Except.ok (JSValue.obj
            [("total", t), ("providers", JSValue.arr rows)])
      ∧ rows.length = ids.length
      ∧ ∀ i : Nat, i < ids.length →
          jsProp (rows.getD i JSValue.undefined) "npi" = vs.getD i JSValue.undefined) := by
  constructor
  · have hrow : ∀ (n : Nat) (x : JSValue),
        icdRow [("code", JSValue.arr vs)]
          (JSValue.arr [t, .arr ids, .obj [("code", .arr vs)], d3]) x n
        = Except.ok (JSValue.obj
            [("code", vs.getD n JSValue.undefined),
             ("name", if jsIsArray (jsIdx d3 n)
                      then jsIdx (jsIdx d3 n) 1 else JSValue.undefined)]) :=
      fun n x => rfl
    have hmap := mapIdxM_pure
      (fun i c => icdRow [("code", JSValue.arr vs)]
        (JSValue.arr [t, .arr ids, .obj [("code", .arr vs)], d3]) c i)
      (fun n _ => JSValue.obj
        [("code", vs.getD n JSValue.undefined),
         ("name", if jsIsArray (jsIdx d3 n)
                  then jsIdx (jsIdx d3 n) 1 else JSValue.undefined)])
      hrow ids 0
    refine ⟨mapIdxFrom (fun n _ => JSValue.obj
        [("code", vs.getD n JSValue.undefined),
         ("name", if jsIsArray (jsIdx d3 n)
                  then jsIdx (jsIdx d3 n) 1 else JSValue.undefined)]) ids 0,
      ?_, mapIdxFrom_length _ ids 0, ?_⟩
    · show searchICD10CM_map (optTruthy ef)
          (JSValue.arr [t, .arr ids, .obj [("code", .arr vs)], d3]) = _
      rw [hef]
      simp [searchICD10CM_map, jsIdxE, jsIdx, jsTruthy, jsEntries, hmap,
        except_bind_ok, except_pure_eq]
    · intro i hi
      have hg := mapIdxFrom_getD (fun n _ => JSValue.obj
        [("code", vs.getD n JSValue.undefined),
         ("name", if jsIsArray (jsIdx d3 n)
                  then jsIdx (jsIdx d3 n) 1 else JSValue.undefined)]) ids 0 i hi
      rw [hg]
      simp [jsProp, lookupField]
  · have hrow : ∀ (n : Nat) (x : JSValue),
        npiRow [("npi", JSValue.arr vs)]
          (JSValue.arr [t, .arr ids, .obj [("npi", .arr vs)], d3]) x n
        = Except.ok (JSValue.obj
            [("npi", vs.getD n JSValue.undefined),
             ("name", jsOr (jsIdx (jsOr (jsIdx d3 n) (.arr [])) 1) (.str "")),
             ("type", jsOr (jsIdx (jsOr (jsIdx d3 n) (.arr [])) 2) (.str "")),
             ("address", jsOr (jsIdx (jsOr (jsIdx d3 n) (.arr [])) 3) (.str ""))]) :=
      fun n x => rfl
    have hmap := mapIdxM_pure
      (fun i c => npiRow [("npi", JSValue.arr vs)]
        (JSValue.arr [t, .arr ids, .obj [("npi", .arr vs)], d3]) c i)
      (fun n _ => JSValue.obj
        [("npi", vs.getD n JSValue.undefined),
         ("name", jsOr (jsIdx (jsOr (jsIdx d3 n) (.arr [])) 1) (.str "")),
         ("type", jsOr (jsIdx (jsOr (jsIdx d3 n) (.arr [])) 2) (.str "")),
         ("address", jsOr (jsIdx (jsOr (jsIdx d3 n) (.arr [])) 3) (.str ""))])
      hrow ids 0
    refine ⟨mapIdxFrom (fun n _ => JSValue.obj
        [("npi", vs.getD n JSValue.undefined),
         ("name", jsOr (jsIdx (jsOr (jsIdx d3 n) (.arr [])) 1) (.str "")),
         ("type", jsOr (jsIdx (jsOr (jsIdx d3 n) (.arr [])) 2) (.str "")),
         ("address", jsOr (jsIdx (jsOr (jsIdx d3 n) (.arr [])) 3) (.str ""))]) ids 0,
      ?_, mapIdxFrom_length _ ids 0, ?_⟩
    · show searchNPI_map (optTruthy ef)
          (JSValue.arr [t, .arr ids, .obj [("npi", .arr vs)], d3]) = _
      rw [hef]
      simp [searchNPI_map, jsIdxE, jsIdx, jsTruthy, jsEntries, hmap,
        except_bind_ok, except_pure_eq]
    · intro i hi
      have hg := mapIdxFrom_getD (fun n _ => JSValue.obj
        [("npi", vs.getD n JSValue.undefined),
         ("name", jsOr (jsIdx (jsOr (jsIdx d3 n) (.arr [])) 1) (.str "")),
         ("type", jsOr (jsIdx (jsOr (jsIdx d3 n) (.arr [])) 2) (.str "")),
         ("address", jsOr (jsIdx (jsOr (jsIdx d3 n) (.arr [])) 3) (.str ""))])
        ids 0 i hi
      rw [hg]
      simp [jsProp, lookupField]

/-- C10 witness: with `ef` supplied and an extra-fields map binding
"code" (resp. "npi") to `["B"]`, the single returned item identifies
itself as "B" although the upstream id list said "A". -/
theorem extra_fields_overwrite_witness :
    optTruthy (some "code") = true
    ∧ ((∃ rows : List JSValue,
        searchICD10CM none none none none none none none none (some "code")
            (fun _ => JSValue.arr
              [jint 1, .arr [JSValue.str "A"],
               .obj [("code", .arr [JSValue.str "B"])], JSValue.null])
          = Except.ok (JSValue.obj
              [("total", jint 1), ("codes", JSValue.arr rows)])
        ∧ rows.length = ([JSValue.str "A"] : List JSValue).length
        ∧ ∀ i : Nat, i < ([JSValue.str "A"] : List JSValue).length →
            jsProp (rows.getD i JSValue.undefined) "code"
              = ([JSValue.str "B"] : List JSValue).getD i JSValue.undefined)
      ∧ (∃ rows : List JSValue,
        searchNPI none none none none none none none none (some "code")
            (fun _ => JSValue.arr
              [jint 1, .arr [JSValue.str "A"],
               .obj [("npi", .arr [JSValue.str "B"])], JSValue.null])
          = Except.ok (JSValue.obj
              [("total", jint 1), ("providers", JSValue.arr rows)])
        ∧ rows.length = ([JSValue.str "A"] : List JSValue).length
        ∧ ∀ i : Nat, i < ([JSValue.str "A"] : List JSValue).length →
            jsProp (rows.getD i JSValue.undefined) "npi"
              = ([JSValue.str "B"] : List JSValue).getD i JSValue.undefined))
    ∧ searchICD10CM none none none none none none none none (some "code")
        (fun _ => JSValue.arr
          [jint 1, .arr [JSValue.str "A"],
           .obj [("code", .arr [JSValue.str "B"])], JSValue.null])
      = Except.ok (JSValue.obj
          [("total", jint 1),
           ("codes", JSValue.arr
             [JSValue.obj [("code", JSValue.str "B"),
                           ("name", JSValue.undefined)]])])
    ∧ ("B" : String) ≠ "A" :=
  ⟨rfl,
   extra_fields_overwrite none none none none none none none none
     (some "code") rfl (jint 1) JSValue.null [JSValue.str "A"]
     [JSValue.str "B"],
   rfl, by decide⟩
